import Mathlib

/-!
# ofgp-core: the node entry point `run` (server.go)

A shallow embedding of `run` (server.go, lines 72-194), the function that
boots a gateway node: it reads the configuration, optionally sets up
profiling, selects the node identity according to the start mode, validates
it, starts the node and the HTTP server, and registers the SIGINT handler.

`run` is straight-line code whose behaviour is the sequence of calls it makes
to other packages and the place where it stops.  The embedding is therefore a
state-passing program over a process state that records

* the package variable `cluster.NodeList`,
* the calls made so far, in order, with their arguments,
* the stack of deferred calls.

Everything `run` reads from outside (configuration values, results of the
calls into os, cluster and node) is an explicit input.
-/

namespace Server

/-! ## Definitions -/

/-! ### Data declared in other packages -/

/-- Modelled from the spec: the declaration of `cluster.NodeInfo` is not part
of server.go.  The fields are those of the spec's ValidatorIdentity (numeric
id, network address, public key); `run` itself reads only `Id` and `Url`. -/
structure NodeInfo where
  Id : Int
  Url : String
  PublicKey : String
deriving DecidableEq, Repr

/-- The Go zero value of `cluster.NodeInfo` (the value of `var nodeInfo`). -/
def NodeInfo.zero : NodeInfo := ⟨0, "", ""⟩

/-- The type `cluster.MultiSigInfo`: `run` only passes such values along, so a
value is represented by an identifying number. -/
structure MultiSigInfo where
  key : Nat
deriving DecidableEq, Repr

/-- The fields of `node.JoinMsg` that `run` reads. -/
structure JoinMsg where
  LocalID : Int
  MultiSigInfos : List MultiSigInfo
deriving DecidableEq, Repr

/-- The constants `cluster.ModeNormal`, `cluster.ModeJoin`, `cluster.ModeWatch`
and `cluster.ModeTest`; their values are declared in package cluster and are
taken as parameters. -/
structure ModeConsts where
  ModeNormal : Int
  ModeJoin : Int
  ModeWatch : Int
  ModeTest : Int
deriving DecidableEq, Repr

/-- The four mode constants are pairwise different. -/
def ModeConsts.Distinct (c : ModeConsts) : Prop :=
  c.ModeNormal ≠ c.ModeJoin ∧ c.ModeNormal ≠ c.ModeWatch ∧ c.ModeNormal ≠ c.ModeTest ∧
  c.ModeJoin ≠ c.ModeWatch ∧ c.ModeJoin ≠ c.ModeTest ∧ c.ModeWatch ≠ c.ModeTest

instance (c : ModeConsts) : Decidable c.Distinct := by
  unfold ModeConsts.Distinct; infer_instance

/-! ### Inputs of `run` -/

/-- The values `run` reads through util and viper (command-line flags and the
configuration file).  `local_id` and `start_mode` are int32 in the source; no
arithmetic is done on them, so they are integers here. -/
structure Config where
  cpuProfile : String
  memProfile : String
  pprof_host : String
  local_id : Int
  start_mode : Int
  local_host : String
  local_pubkey : String
  local_pubkey_hash : String
  local_http_port : Int
  local_http_user : String
  local_http_pwd : String
  need_metrics : Bool
deriving DecidableEq, Repr

/-- The results of the calls `run` makes into other packages.

* `createCPUErr`, `createMemErr`: `os.Create` returned a non-nil error
  (lines 81 and 90).
* `NodeList0`: the package variable `cluster.NodeList` when `run` starts.
* `Init`: the value of `cluster.NodeList` after `cluster.Init()`.
* `InitJoin m`: the pointer returned by `node.InitJoin(m)` (`none` is nil) and
  the value of `cluster.NodeList` after the call.
* `InitObserver`: the error returned by `node.InitObserver()` (`none` is nil)
  and the value of `cluster.NodeList` after the call.
* `NewNodeInfo`: the function `cluster.NewNodeInfo`.
* `sigint`: whether a SIGINT is ever delivered on `sigChan`. -/
structure World where
  createCPUErr : Bool
  createMemErr : Bool
  NodeList0 : List NodeInfo
  Init : List NodeInfo
  InitJoin : Int → Option JoinMsg × List NodeInfo
  InitObserver : Option String × List NodeInfo
  NewNodeInfo : String → Int → String → String → NodeInfo
  sigint : Bool

/-! ### Observable behaviour and the state-passing steps -/

/-- The two handlers `run` can register for SIGINT. -/
inductive Handler where
  | LeaveCluster
  | Stop
deriving DecidableEq, Repr

/-- The calls `run` makes, with the arguments that matter. -/
inductive Call where
  | ReadConfig
  | osCreate (path : String)
  | StartCPUProfile
  | StopCPUProfile
  | WriteHeapProfile
  | ListenAndServe (host : String)
  | SetNodeParams
  | Init
  | InitJoin (startMode : Int)
  | NewNodeInfo (host : String) (nodeId : Int) (pubKey pubKeyHash : String)
  | InitObserver
  | RunNew (nodeInfo : NodeInfo) (multiSigs : List MultiSigInfo)
  | StartHTTP (user pwd : String) (port : Int)
  | baseMetrics
  | Register (h : Handler)
  | Notify
  | Handle
deriving DecidableEq, Repr

/-- The ways `run` can panic: the panic statements of the source, each with
the values its message is formatted from, and the two run-time panics of the
Go language that the code of `run` can raise itself. -/
inductive Panic where
  | createCpuProfileFailed
  | createMemProfileFailed
  | invalidNodeid (nodeId : Int) (size : Nat)
  | joinInvalidNodeid (nodeId : Int) (size : Nat)
  | joinNotSetLocalHost
  | joinNotSetLocalPubkey
  | joinNotSetPubkeyHash
  | initObserverErr (err : String)
  | getNoNodeInfo (startMode : Int)
  | indexOutOfRange (index : Int) (size : Nat)
  | nilDereference
deriving DecidableEq, Repr

/-- How a computation ends: with a value, in a panic, or waiting for ever. -/
inductive Flow (α : Type) where
  | ok (a : α)
  | panicked (p : Panic)
  | blocked
deriving Repr

/-- The process state threaded through `run`. -/
structure Proc where
  NodeList : List NodeInfo
  calls : List Call
  deferred : List Call
deriving Repr

/-- A step of `run`: from a process state to a flow and the next state. -/
def M (α : Type) : Type := Proc → Flow α × Proc

/-- Sequencing: a panic or a block ends the computation, the state is kept. -/
def M.bind {α β : Type} (m : M α) (f : α → M β) : M β := fun s =>
  match m s with
  | (Flow.ok a, s1) => f a s1
  | (Flow.panicked p, s1) => (Flow.panicked p, s1)
  | (Flow.blocked, s1) => (Flow.blocked, s1)

instance : Monad M where
  pure a := fun s => (Flow.ok a, s)
  bind := M.bind

/-- Record a call to another package. -/
def call (c : Call) : M Unit := fun s => (Flow.ok (), { s with calls := s.calls ++ [c] })

/-- The Go statement `defer c`. -/
def defer (c : Call) : M Unit := fun s => (Flow.ok (), { s with deferred := c :: s.deferred })

/-- The Go statement `panic(...)`, and the run-time panics. -/
def panic {α : Type} (p : Panic) : M α := fun s => (Flow.panicked p, s)

/-- Read the package variable `cluster.NodeList`. -/
def getNodeList : M (List NodeInfo) := fun s => (Flow.ok s.NodeList, s)

/-- A call that assigns the package variable `cluster.NodeList`. -/
def setNodeList (l : List NodeInfo) : M Unit := fun s => (Flow.ok (), { s with NodeList := l })

/-- The Go index expression `l[i]` on a slice, which panics out of range. -/
def index (l : List NodeInfo) (i : Int) : M NodeInfo :=
  if 0 ≤ i then
    match l[i.toNat]? with
    | some x => pure x
    | none => panic (Panic.indexOutOfRange i l.length)
  else panic (Panic.indexOutOfRange i l.length)

/-- The receive `sig := <-sigChan`, which waits until a SIGINT arrives. -/
def recvSignal (w : World) : M Unit := fun s =>
  if w.sigint then (Flow.ok (), s) else (Flow.blocked, s)

/-! ### The function `run` -/

/-- Lines 78-95: CPU and memory profiling. -/
def setupProfiles (cfg : Config) (w : World) : M Unit := do
  if cfg.cpuProfile.length > 0 then
    call (Call.osCreate cfg.cpuProfile)
    if w.createCPUErr then
      panic Panic.createCpuProfileFailed
    call Call.StartCPUProfile
    defer Call.StopCPUProfile
  if cfg.memProfile.length > 0 then
    call (Call.osCreate cfg.memProfile)
    if w.createMemErr then
      panic Panic.createMemProfileFailed
    defer Call.WriteHeapProfile

/-- Lines 121-156: the start-mode dispatch.  The result is the triple of the
variables `joinMsg`, `nodeInfo` and `nodeId` after the if-else chain. -/
def selectNodeInfo (c : ModeConsts) (cfg : Config) (w : World) :
    M (Option JoinMsg × NodeInfo × Int) := do
  let nodeId := cfg.local_id
  let startMode := cfg.start_mode
  if startMode = c.ModeNormal then
    call Call.Init
    setNodeList w.Init
    let nodeInfo ← index (← getNodeList) nodeId
    if nodeId ≥ ((← getNodeList).length : Int) then
      panic (Panic.invalidNodeid nodeId (← getNodeList).length)
    pure (none, nodeInfo, nodeId)
  else if startMode = c.ModeJoin then
    call (Call.InitJoin startMode)
    setNodeList (w.InitJoin startMode).2
    match (w.InitJoin startMode).1 with
    | none => panic Panic.nilDereference
    | some joinMsg =>
      let nodeId := joinMsg.LocalID
      if nodeId > ((← getNodeList).length : Int) then
        panic (Panic.joinInvalidNodeid nodeId (← getNodeList).length)
      let host := cfg.local_host
      if host = "" then
        panic Panic.joinNotSetLocalHost
      let pubKey := cfg.local_pubkey
      if pubKey = "" then
        panic Panic.joinNotSetLocalPubkey
      let pubKeyHash := cfg.local_pubkey_hash
      if pubKeyHash = "" then
        panic Panic.joinNotSetPubkeyHash
      call (Call.NewNodeInfo host nodeId pubKey pubKeyHash)
      pure (some joinMsg, w.NewNodeInfo host nodeId pubKey pubKeyHash, nodeId)
  else if startMode = c.ModeWatch ∨ startMode = c.ModeTest then
    call Call.InitObserver
    setNodeList w.InitObserver.2
    match w.InitObserver.1 with
    | some err => panic (Panic.initObserverErr err)
    | none => pure (none, { NodeInfo.zero with Id := 0 }, nodeId)
  else
    pure (none, NodeInfo.zero, nodeId)

/-- Lines 157-193: the checks on the selected identity, the start of the node
and of the HTTP server, and the SIGINT handling.  The arguments are the
variables `joinMsg`, `nodeInfo` and `nodeId` left by the start-mode dispatch. -/
def startNode (c : ModeConsts) (cfg : Config) (w : World)
    (joinMsg : Option JoinMsg) (nodeInfo : NodeInfo) (nodeId : Int) : M Unit := do
  let startMode := cfg.start_mode
  if startMode ≠ c.ModeWatch ∧ startMode ≠ c.ModeTest ∧ nodeInfo.Url = "" then
    panic (Panic.getNoNodeInfo startMode)
  let httpPort := cfg.local_http_port
  if nodeId < 0 then
    panic (Panic.invalidNodeid nodeId (← getNodeList).length)
  let multiSigs : List MultiSigInfo :=
    match joinMsg with
    | some jm => if jm.MultiSigInfos.length > 0 then jm.MultiSigInfos else []
    | none => []
  call (Call.RunNew nodeInfo multiSigs)
  let user := cfg.local_http_user
  let pwd := cfg.local_http_pwd
  call (Call.StartHTTP user pwd httpPort)
  let needMetrics := cfg.need_metrics
  if needMetrics then
    call Call.baseMetrics
  if startMode ≠ c.ModeWatch ∧ startMode ≠ c.ModeTest then
    call (Call.Register Handler.LeaveCluster)
  else
    call (Call.Register Handler.Stop)
  call Call.Notify
  recvSignal w
  call Call.Handle

/-- Lines 72-194: the body of `run`, before its deferred calls. -/
def runBody (c : ModeConsts) (cfg : Config) (w : World) : M Unit := do
  call Call.ReadConfig
  setupProfiles cfg w
  if cfg.pprof_host.length > 0 then
    call (Call.ListenAndServe cfg.pprof_host)
  call Call.SetNodeParams
  let (joinMsg, nodeInfo, nodeId) ← selectNodeInfo c cfg w
  startNode c cfg w joinMsg nodeInfo nodeId

/-- How `run` ends. -/
inductive Outcome where
  | returned
  | panicked (p : Panic)
  | blocked
deriving DecidableEq, Repr

/-- What an execution of `run` does: the calls it makes, in order, how it
ends, and the final value of `cluster.NodeList`. -/
structure Result where
  calls : List Call
  outcome : Outcome
  NodeList : List NodeInfo
deriving DecidableEq, Repr

/-- The end of `run`: on return and on panic alike the deferred calls are
made, last deferred first; a blocked `run` makes none. -/
def finish (r : Flow Unit × Proc) : Result :=
  match r with
  | (Flow.ok _, s) => ⟨s.calls ++ s.deferred, Outcome.returned, s.NodeList⟩
  | (Flow.panicked p, s) => ⟨s.calls ++ s.deferred, Outcome.panicked p, s.NodeList⟩
  | (Flow.blocked, s) => ⟨s.calls, Outcome.blocked, s.NodeList⟩

/-- The function `run`: the body, started with no call made and nothing
deferred, then the deferred calls. -/
def run (c : ModeConsts) (cfg : Config) (w : World) : Result :=
  finish (runBody c cfg w ⟨w.NodeList0, [], []⟩)

/-- The execution aborted: `run` ended in a panic. -/
def Result.aborted (r : Result) : Prop := ∃ p, r.outcome = Outcome.panicked p

instance (r : Result) : Decidable r.aborted := by
  unfold Result.aborted
  cases h : r.outcome with
  | returned => exact isFalse (by simp)
  | panicked p => exact isTrue ⟨p, rfl⟩
  | blocked => exact isFalse (by simp)

/-- The call `node.RunNew` was made. -/
def Result.startedNode (r : Result) : Prop := ∃ ni ms, Call.RunNew ni ms ∈ r.calls

/-- The call `httpsvr.StartHTTP` was made. -/
def Result.startedHTTP (r : Result) : Prop := ∃ u p port, Call.StartHTTP u p port ∈ r.calls

/-! ### Sample inputs -/

/-- Sample mode constants. -/
def modes : ModeConsts := ⟨0, 1, 2, 3⟩

/-- Sample node list of four validators. -/
def nodes4 : List NodeInfo :=
  [⟨0, "n0:10000", "pk0"⟩, ⟨1, "n1:10000", "pk1"⟩, ⟨2, "n2:10000", "pk2"⟩, ⟨3, "n3:10000", "pk3"⟩]

/-- Sample configuration: profiling off, every identity setting present. -/
def cfg0 (mode id : Int) : Config :=
  { cpuProfile := "", memProfile := "", pprof_host := "", local_id := id, start_mode := mode,
    local_host := "n4:10000", local_pubkey := "pk4", local_pubkey_hash := "pkh4",
    local_http_port := 8080, local_http_user := "u", local_http_pwd := "p",
    need_metrics := false }

/-- Sample world: every external call succeeds, the join message carries
`joinId` and the multi-signature list `ms`. -/
def world0 (joinId : Int) (ms : List MultiSigInfo) : World :=
  { createCPUErr := false, createMemErr := false, NodeList0 := [], Init := nodes4,
    InitJoin := fun _ => (some ⟨joinId, ms⟩, nodes4), InitObserver := (none, nodes4),
    NewNodeInfo := fun host id pk _ => ⟨id, host, pk⟩, sigint := true }

/-! ### The calls of each phase and the decision table -/

/-- The profiling calls made when both profile files can be created. -/
def profCalls (cfg : Config) : List Call :=
  (if cfg.cpuProfile.length > 0 then [Call.osCreate cfg.cpuProfile, Call.StartCPUProfile] else []) ++
  (if cfg.memProfile.length > 0 then [Call.osCreate cfg.memProfile] else [])

/-- The calls deferred by the CPU profiling block. -/
def cpuDefers (cfg : Config) : List Call :=
  if cfg.cpuProfile.length > 0 then [Call.StopCPUProfile] else []

/-- The calls deferred by both profiling blocks, last deferred first. -/
def profDefers (cfg : Config) : List Call :=
  (if cfg.memProfile.length > 0 then [Call.WriteHeapProfile] else []) ++ cpuDefers cfg

/-- The calls made before the start-mode dispatch (lines 73-119). -/
def preCalls (cfg : Config) : List Call :=
  [Call.ReadConfig] ++ profCalls cfg ++
  (if cfg.pprof_host.length > 0 then [Call.ListenAndServe cfg.pprof_host] else []) ++
  [Call.SetNodeParams]

/-- The multi-signature list built at lines 167-170 from `joinMsg`. -/
def multiSigsOf (joinMsg : Option JoinMsg) : List MultiSigInfo :=
  match joinMsg with
  | some jm => if jm.MultiSigInfos.length > 0 then jm.MultiSigInfos else []
  | none => []

/-- The handler chosen at lines 183-188. -/
def handlerOf (c : ModeConsts) (cfg : Config) : Handler :=
  if cfg.start_mode ≠ c.ModeWatch ∧ cfg.start_mode ≠ c.ModeTest then Handler.LeaveCluster
  else Handler.Stop

/-- The calls made from `node.RunNew` on (lines 171-193). -/
def startCalls (c : ModeConsts) (cfg : Config) (w : World) (nodeInfo : NodeInfo)
    (joinMsg : Option JoinMsg) : List Call :=
  [Call.RunNew nodeInfo (multiSigsOf joinMsg),
   Call.StartHTTP cfg.local_http_user cfg.local_http_pwd cfg.local_http_port] ++
  (if cfg.need_metrics then [Call.baseMetrics] else []) ++
  [Call.Register (handlerOf c cfg), Call.Notify] ++
  (if w.sigint then [Call.Handle] else [])

/-- The check of line 157. -/
def noNodeInfo (c : ModeConsts) (cfg : Config) (nodeInfo : NodeInfo) : Prop :=
  cfg.start_mode ≠ c.ModeWatch ∧ cfg.start_mode ≠ c.ModeTest ∧ nodeInfo.Url = ""

instance (c : ModeConsts) (cfg : Config) (ni : NodeInfo) : Decidable (noNodeInfo c cfg ni) := by
  unfold noNodeInfo; infer_instance

/-- Neither profile file fails to be created. -/
def ProfilesOk (cfg : Config) (w : World) : Prop :=
  ¬ (cfg.cpuProfile.length > 0 ∧ w.createCPUErr = true) ∧
  ¬ (cfg.memProfile.length > 0 ∧ w.createMemErr = true)

instance (cfg : Config) (w : World) : Decidable (ProfilesOk cfg w) := by
  unfold ProfilesOk; infer_instance

/-- The result of a run that reaches `node.RunNew`, given the calls made
before it. -/
def started (c : ModeConsts) (cfg : Config) (w : World) (before : List Call)
    (ni : NodeInfo) (jm : Option JoinMsg) (nl : List NodeInfo) : Result :=
  ⟨before ++ startCalls c cfg w ni jm ++ (if w.sigint then profDefers cfg else []),
   if w.sigint then Outcome.returned else Outcome.blocked, nl⟩

/-- The result of a run that panics after the profiling set-up, given the
calls made before the panic. -/
def stopped (cfg : Config) (before : List Call) (p : Panic) (nl : List NodeInfo) : Result :=
  ⟨before ++ profDefers cfg, Outcome.panicked p, nl⟩

/-- The decision table of `run`: every way an execution can go, with the
conditions under which it goes that way and the result it then has. -/
inductive RunCase (c : ModeConsts) (cfg : Config) (w : World) : Result → Prop where
  | cpuFail (h : cfg.cpuProfile.length > 0 ∧ w.createCPUErr = true) :
      RunCase c cfg w ⟨[Call.ReadConfig, Call.osCreate cfg.cpuProfile],
        Outcome.panicked Panic.createCpuProfileFailed, w.NodeList0⟩
  | memFail (h1 : ¬ (cfg.cpuProfile.length > 0 ∧ w.createCPUErr = true))
      (h : cfg.memProfile.length > 0 ∧ w.createMemErr = true) :
      RunCase c cfg w ⟨[Call.ReadConfig] ++ ((if cfg.cpuProfile.length > 0 then
          [Call.osCreate cfg.cpuProfile, Call.StartCPUProfile] else []) ++
          [Call.osCreate cfg.memProfile]) ++ cpuDefers cfg,
        Outcome.panicked Panic.createMemProfileFailed, w.NodeList0⟩
  | normalOutOfRange (hp : ProfilesOk cfg w) (hN : cfg.start_mode = c.ModeNormal)
      (h : cfg.local_id < 0 ∨ (w.Init.length : Int) ≤ cfg.local_id) :
      RunCase c cfg w (stopped cfg (preCalls cfg ++ [Call.Init])
        (Panic.indexOutOfRange cfg.local_id w.Init.length) w.Init)
  | normalNoInfo (hp : ProfilesOk cfg w) (hN : cfg.start_mode = c.ModeNormal)
      (h0 : 0 ≤ cfg.local_id) (ni : NodeInfo) (hg : w.Init[cfg.local_id.toNat]? = some ni)
      (h : noNodeInfo c cfg ni) :
      RunCase c cfg w (stopped cfg (preCalls cfg ++ [Call.Init])
        (Panic.getNoNodeInfo cfg.start_mode) w.Init)
  | normalStarted (hp : ProfilesOk cfg w) (hN : cfg.start_mode = c.ModeNormal)
      (h0 : 0 ≤ cfg.local_id) (ni : NodeInfo) (hg : w.Init[cfg.local_id.toNat]? = some ni)
      (h : ¬ noNodeInfo c cfg ni) :
      RunCase c cfg w (started c cfg w (preCalls cfg ++ [Call.Init]) ni none w.Init)
  | joinNil (hp : ProfilesOk cfg w) (hN : cfg.start_mode ≠ c.ModeNormal)
      (hJ : cfg.start_mode = c.ModeJoin) (hg : (w.InitJoin cfg.start_mode).1 = none) :
      RunCase c cfg w (stopped cfg (preCalls cfg ++ [Call.InitJoin cfg.start_mode])
        Panic.nilDereference (w.InitJoin cfg.start_mode).2)
  | joinInvalid (hp : ProfilesOk cfg w) (hN : cfg.start_mode ≠ c.ModeNormal)
      (hJ : cfg.start_mode = c.ModeJoin) (jm : JoinMsg)
      (hg : (w.InitJoin cfg.start_mode).1 = some jm)
      (h1 : jm.LocalID > ((w.InitJoin cfg.start_mode).2.length : Int)) :
      RunCase c cfg w (stopped cfg (preCalls cfg ++ [Call.InitJoin cfg.start_mode])
        (Panic.joinInvalidNodeid jm.LocalID (w.InitJoin cfg.start_mode).2.length)
        (w.InitJoin cfg.start_mode).2)
  | joinNoHost (hp : ProfilesOk cfg w) (hN : cfg.start_mode ≠ c.ModeNormal)
      (hJ : cfg.start_mode = c.ModeJoin) (jm : JoinMsg)
      (hg : (w.InitJoin cfg.start_mode).1 = some jm)
      (h1 : ¬ jm.LocalID > ((w.InitJoin cfg.start_mode).2.length : Int))
      (h2 : cfg.local_host = "") :
      RunCase c cfg w (stopped cfg (preCalls cfg ++ [Call.InitJoin cfg.start_mode])
        Panic.joinNotSetLocalHost (w.InitJoin cfg.start_mode).2)
  | joinNoPubkey (hp : ProfilesOk cfg w) (hN : cfg.start_mode ≠ c.ModeNormal)
      (hJ : cfg.start_mode = c.ModeJoin) (jm : JoinMsg)
      (hg : (w.InitJoin cfg.start_mode).1 = some jm)
      (h1 : ¬ jm.LocalID > ((w.InitJoin cfg.start_mode).2.length : Int))
      (h2 : cfg.local_host ≠ "") (h3 : cfg.local_pubkey = "") :
      RunCase c cfg w (stopped cfg (preCalls cfg ++ [Call.InitJoin cfg.start_mode])
        Panic.joinNotSetLocalPubkey (w.InitJoin cfg.start_mode).2)
  | joinNoHash (hp : ProfilesOk cfg w) (hN : cfg.start_mode ≠ c.ModeNormal)
      (hJ : cfg.start_mode = c.ModeJoin) (jm : JoinMsg)
      (hg : (w.InitJoin cfg.start_mode).1 = some jm)
      (h1 : ¬ jm.LocalID > ((w.InitJoin cfg.start_mode).2.length : Int))
      (h2 : cfg.local_host ≠ "") (h3 : cfg.local_pubkey ≠ "")
      (h4 : cfg.local_pubkey_hash = "") :
      RunCase c cfg w (stopped cfg (preCalls cfg ++ [Call.InitJoin cfg.start_mode])
        Panic.joinNotSetPubkeyHash (w.InitJoin cfg.start_mode).2)
  | joinNoInfo (hp : ProfilesOk cfg w) (hN : cfg.start_mode ≠ c.ModeNormal)
      (hJ : cfg.start_mode = c.ModeJoin) (jm : JoinMsg)
      (hg : (w.InitJoin cfg.start_mode).1 = some jm)
      (h1 : ¬ jm.LocalID > ((w.InitJoin cfg.start_mode).2.length : Int))
      (h2 : cfg.local_host ≠ "") (h3 : cfg.local_pubkey ≠ "")
      (h4 : cfg.local_pubkey_hash ≠ "")
      (h5 : noNodeInfo c cfg (w.NewNodeInfo cfg.local_host jm.LocalID cfg.local_pubkey
        cfg.local_pubkey_hash)) :
      RunCase c cfg w (stopped cfg (preCalls cfg ++ [Call.InitJoin cfg.start_mode,
          Call.NewNodeInfo cfg.local_host jm.LocalID cfg.local_pubkey cfg.local_pubkey_hash])
        (Panic.getNoNodeInfo cfg.start_mode) (w.InitJoin cfg.start_mode).2)
  | joinNegative (hp : ProfilesOk cfg w) (hN : cfg.start_mode ≠ c.ModeNormal)
      (hJ : cfg.start_mode = c.ModeJoin) (jm : JoinMsg)
      (hg : (w.InitJoin cfg.start_mode).1 = some jm)
      (h1 : ¬ jm.LocalID > ((w.InitJoin cfg.start_mode).2.length : Int))
      (h2 : cfg.local_host ≠ "") (h3 : cfg.local_pubkey ≠ "")
      (h4 : cfg.local_pubkey_hash ≠ "")
      (h5 : ¬ noNodeInfo c cfg (w.NewNodeInfo cfg.local_host jm.LocalID cfg.local_pubkey
        cfg.local_pubkey_hash))
      (h6 : jm.LocalID < 0) :
      RunCase c cfg w (stopped cfg (preCalls cfg ++ [Call.InitJoin cfg.start_mode,
          Call.NewNodeInfo cfg.local_host jm.LocalID cfg.local_pubkey cfg.local_pubkey_hash])
        (Panic.invalidNodeid jm.LocalID (w.InitJoin cfg.start_mode).2.length)
        (w.InitJoin cfg.start_mode).2)
  | joinStarted (hp : ProfilesOk cfg w) (hN : cfg.start_mode ≠ c.ModeNormal)
      (hJ : cfg.start_mode = c.ModeJoin) (jm : JoinMsg)
      (hg : (w.InitJoin cfg.start_mode).1 = some jm)
      (h1 : ¬ jm.LocalID > ((w.InitJoin cfg.start_mode).2.length : Int))
      (h2 : cfg.local_host ≠ "") (h3 : cfg.local_pubkey ≠ "")
      (h4 : cfg.local_pubkey_hash ≠ "")
      (h5 : ¬ noNodeInfo c cfg (w.NewNodeInfo cfg.local_host jm.LocalID cfg.local_pubkey
        cfg.local_pubkey_hash))
      (h6 : ¬ jm.LocalID < 0) :
      RunCase c cfg w (started c cfg w (preCalls cfg ++ [Call.InitJoin cfg.start_mode,
          Call.NewNodeInfo cfg.local_host jm.LocalID cfg.local_pubkey cfg.local_pubkey_hash])
        (w.NewNodeInfo cfg.local_host jm.LocalID cfg.local_pubkey cfg.local_pubkey_hash)
        (some jm) (w.InitJoin cfg.start_mode).2)
  | observerErr (hp : ProfilesOk cfg w) (hN : cfg.start_mode ≠ c.ModeNormal)
      (hJ : cfg.start_mode ≠ c.ModeJoin)
      (hO : cfg.start_mode = c.ModeWatch ∨ cfg.start_mode = c.ModeTest)
      (err : String) (hg : w.InitObserver.1 = some err) :
      RunCase c cfg w (stopped cfg (preCalls cfg ++ [Call.InitObserver])
        (Panic.initObserverErr err) w.InitObserver.2)
  | observerNegative (hp : ProfilesOk cfg w) (hN : cfg.start_mode ≠ c.ModeNormal)
      (hJ : cfg.start_mode ≠ c.ModeJoin)
      (hO : cfg.start_mode = c.ModeWatch ∨ cfg.start_mode = c.ModeTest)
      (hg : w.InitObserver.1 = none) (h6 : cfg.local_id < 0) :
      RunCase c cfg w (stopped cfg (preCalls cfg ++ [Call.InitObserver])
        (Panic.invalidNodeid cfg.local_id w.InitObserver.2.length) w.InitObserver.2)
  | observerStarted (hp : ProfilesOk cfg w) (hN : cfg.start_mode ≠ c.ModeNormal)
      (hJ : cfg.start_mode ≠ c.ModeJoin)
      (hO : cfg.start_mode = c.ModeWatch ∨ cfg.start_mode = c.ModeTest)
      (hg : w.InitObserver.1 = none) (h6 : ¬ cfg.local_id < 0) :
      RunCase c cfg w (started c cfg w (preCalls cfg ++ [Call.InitObserver])
        { NodeInfo.zero with Id := 0 } none w.InitObserver.2)
  | otherMode (hp : ProfilesOk cfg w) (hN : cfg.start_mode ≠ c.ModeNormal)
      (hJ : cfg.start_mode ≠ c.ModeJoin) (hW : cfg.start_mode ≠ c.ModeWatch)
      (hT : cfg.start_mode ≠ c.ModeTest) :
      RunCase c cfg w (stopped cfg (preCalls cfg) (Panic.getNoNodeInfo cfg.start_mode)
        w.NodeList0)

/-- The calls of the profiling and configuration phase (lines 73-119) and the
calls deferred there. -/
def Call.isSetup : Call → Bool
  | Call.ReadConfig => true
  | Call.osCreate _ => true
  | Call.StartCPUProfile => true
  | Call.StopCPUProfile => true
  | Call.WriteHeapProfile => true
  | Call.ListenAndServe _ => true
  | Call.SetNodeParams => true
  | _ => false

/-! ### Vocabulary of the claims -/

/-- The node id that `run` validates: `DGW.local_id`, or `joinMsg.LocalID` in
Join mode (where it is defined only if `node.InitJoin` returns a message). -/
def effectiveNodeId (c : ModeConsts) (cfg : Config) (w : World) : Option Int :=
  if cfg.start_mode = c.ModeNormal then some cfg.local_id
  else if cfg.start_mode = c.ModeJoin then (w.InitJoin cfg.start_mode).1.map JoinMsg.LocalID
  else some cfg.local_id

/-- The node id is invalid for the chosen start mode: it is negative, or out
of range for the cluster node list (at or beyond its length in Normal mode,
beyond its length in Join mode). -/
def nodeIdInvalid (c : ModeConsts) (cfg : Config) (w : World) : Prop :=
  (∃ id, effectiveNodeId c cfg w = some id ∧ id < 0) ∨
  (cfg.start_mode = c.ModeNormal ∧ (w.Init.length : Int) ≤ cfg.local_id) ∨
  (cfg.start_mode ≠ c.ModeNormal ∧ cfg.start_mode = c.ModeJoin ∧
    ∃ jm, (w.InitJoin cfg.start_mode).1 = some jm ∧
      jm.LocalID > ((w.InitJoin cfg.start_mode).2.length : Int))

/-- A required identity item is missing: the Url of the node's identity (the
entry of the node list in Normal mode, the value built by
`cluster.NewNodeInfo` in Join mode, the zero value for an unknown mode), or,
in Join mode, one of `DGW.local_host`, `DGW.local_pubkey`,
`KEYSTORE.local_pubkey_hash`.  An observer needs none of them. -/
def identityMissing (c : ModeConsts) (cfg : Config) (w : World) : Prop :=
  if cfg.start_mode = c.ModeNormal then
    ∃ ni, w.Init[cfg.local_id.toNat]? = some ni ∧ ni.Url = ""
  else if cfg.start_mode = c.ModeJoin then
    cfg.local_host = "" ∨ cfg.local_pubkey = "" ∨ cfg.local_pubkey_hash = "" ∨
    ∃ jm, (w.InitJoin cfg.start_mode).1 = some jm ∧
      (w.NewNodeInfo cfg.local_host jm.LocalID cfg.local_pubkey cfg.local_pubkey_hash).Url = ""
  else if cfg.start_mode = c.ModeWatch ∨ cfg.start_mode = c.ModeTest then False
  else NodeInfo.zero.Url = ""

/-- The call `node.InitObserver` of an observer start returns an error. -/
def observerInitFails (c : ModeConsts) (cfg : Config) (w : World) : Prop :=
  cfg.start_mode ≠ c.ModeNormal ∧ cfg.start_mode ≠ c.ModeJoin ∧
  (cfg.start_mode = c.ModeWatch ∨ cfg.start_mode = c.ModeTest) ∧ w.InitObserver.1 ≠ none

/-- The call `node.InitJoin` of a Join start returns a nil message. -/
def joinMsgNil (c : ModeConsts) (cfg : Config) (w : World) : Prop :=
  cfg.start_mode ≠ c.ModeNormal ∧ cfg.start_mode = c.ModeJoin ∧
  (w.InitJoin cfg.start_mode).1 = none

/-- Sample input: a Normal start of node 0 with CPU profiling requested. -/
def cfgProfiled : Config := { cfg0 0 0 with cpuProfile := "cpu.prof" }

/-- Sample world: as `world0`, but the CPU profile file cannot be created. -/
def worldNoCpuFile : World := { world0 4 [] with createCPUErr := true }

/-- Sample input: a start with the unknown mode 9 and memory profiling
requested. -/
def cfgUnknownMode : Config := { cfg0 9 0 with memProfile := "mem.prof" }

/-- Sample world: as `world0`, but the memory profile file cannot be created. -/
def worldNoMemFile : World := { world0 4 [] with createMemErr := true }

/-! ## Theorems -/

/-! ### The phases of `run` -/

theorem bind_apply {α β : Type} (m : M α) (f : α → M β) (s : Proc) :
    (m >>= f) s = match m s with
      | (Flow.ok a, s1) => f a s1
      | (Flow.panicked p, s1) => (Flow.panicked p, s1)
      | (Flow.blocked, s1) => (Flow.blocked, s1) := rfl

theorem pure_apply {α : Type} (a : α) (s : Proc) : (pure a : M α) s = (Flow.ok a, s) := rfl

theorem setupProfiles_eq (cfg : Config) (w : World) (s : Proc) :
    setupProfiles cfg w s =
      if cfg.cpuProfile.length > 0 ∧ w.createCPUErr = true then
        (Flow.panicked Panic.createCpuProfileFailed,
          { s with calls := s.calls ++ [Call.osCreate cfg.cpuProfile] })
      else if cfg.memProfile.length > 0 ∧ w.createMemErr = true then
        (Flow.panicked Panic.createMemProfileFailed,
          { s with calls := s.calls ++ ((if cfg.cpuProfile.length > 0 then
                              [Call.osCreate cfg.cpuProfile, Call.StartCPUProfile] else []) ++
                              [Call.osCreate cfg.memProfile]),
                   deferred := cpuDefers cfg ++ s.deferred })
      else
        (Flow.ok (), { s with calls := s.calls ++ profCalls cfg,
                              deferred := profDefers cfg ++ s.deferred }) := by
  unfold setupProfiles profCalls profDefers cpuDefers
  by_cases h1 : cfg.cpuProfile.length > 0 <;> by_cases h2 : w.createCPUErr = true <;>
    by_cases h3 : cfg.memProfile.length > 0 <;> by_cases h4 : w.createMemErr = true <;>
    simp [bind_apply, pure_apply, call, defer, panic, h1, h2, h3, h4]

theorem startNode_eq (c : ModeConsts) (cfg : Config) (w : World)
    (jm : Option JoinMsg) (ni : NodeInfo) (id : Int) (s : Proc) :
    startNode c cfg w jm ni id s =
      if noNodeInfo c cfg ni then (Flow.panicked (Panic.getNoNodeInfo cfg.start_mode), s)
      else if id < 0 then (Flow.panicked (Panic.invalidNodeid id s.NodeList.length), s)
      else (if w.sigint = true then Flow.ok () else Flow.blocked,
            { s with calls := s.calls ++ startCalls c cfg w ni jm }) := by
  unfold startNode startCalls handlerOf multiSigsOf noNodeInfo
  by_cases hW : cfg.start_mode = c.ModeWatch <;> by_cases hT : cfg.start_mode = c.ModeTest <;>
    by_cases hU : ni.Url = "" <;> by_cases h2 : id < 0 <;>
    by_cases h3 : cfg.need_metrics = true <;> by_cases h4 : w.sigint = true <;>
    simp [bind_apply, pure_apply, panic, getNodeList, call, recvSignal, hW, hT, hU, h2, h3, h4]

theorem selectNodeInfo_normal (c : ModeConsts) (cfg : Config) (w : World) (s : Proc)
    (hN : cfg.start_mode = c.ModeNormal) :
    selectNodeInfo c cfg w s =
      match (if 0 ≤ cfg.local_id then w.Init[cfg.local_id.toNat]? else none) with
      | some ni => (Flow.ok (none, ni, cfg.local_id),
          { s with NodeList := w.Init, calls := s.calls ++ [Call.Init] })
      | none => (Flow.panicked (Panic.indexOutOfRange cfg.local_id w.Init.length),
          { s with NodeList := w.Init, calls := s.calls ++ [Call.Init] }) := by
  unfold selectNodeInfo index
  by_cases h0 : 0 ≤ cfg.local_id
  · cases hg : w.Init[cfg.local_id.toNat]? with
    | none => simp [bind_apply, pure_apply, panic, getNodeList, setNodeList, call, hN, h0, hg]
    | some ni =>
      have hlt : cfg.local_id.toNat < w.Init.length := by
        rcases List.getElem?_eq_some.mp hg with ⟨h, _⟩
        exact h
      have hlt3 : ¬ ((w.Init.length : Int) ≤ cfg.local_id) := by omega
      simp [bind_apply, pure_apply, panic, getNodeList, setNodeList, call, hN, h0, hg, hlt3]
  · simp [bind_apply, pure_apply, panic, getNodeList, setNodeList, call, hN, h0]

theorem selectNodeInfo_join (c : ModeConsts) (cfg : Config) (w : World) (s : Proc)
    (hN : cfg.start_mode ≠ c.ModeNormal) (hJ : cfg.start_mode = c.ModeJoin) :
    selectNodeInfo c cfg w s =
      match (w.InitJoin cfg.start_mode).1 with
      | none => (Flow.panicked Panic.nilDereference,
          { s with NodeList := (w.InitJoin cfg.start_mode).2,
                   calls := s.calls ++ [Call.InitJoin cfg.start_mode] })
      | some jm =>
        if jm.LocalID > ((w.InitJoin cfg.start_mode).2.length : Int) then
          (Flow.panicked (Panic.joinInvalidNodeid jm.LocalID (w.InitJoin cfg.start_mode).2.length),
            { s with NodeList := (w.InitJoin cfg.start_mode).2,
                     calls := s.calls ++ [Call.InitJoin cfg.start_mode] })
        else if cfg.local_host = "" then
          (Flow.panicked Panic.joinNotSetLocalHost,
            { s with NodeList := (w.InitJoin cfg.start_mode).2,
                     calls := s.calls ++ [Call.InitJoin cfg.start_mode] })
        else if cfg.local_pubkey = "" then
          (Flow.panicked Panic.joinNotSetLocalPubkey,
            { s with NodeList := (w.InitJoin cfg.start_mode).2,
                     calls := s.calls ++ [Call.InitJoin cfg.start_mode] })
        else if cfg.local_pubkey_hash = "" then
          (Flow.panicked Panic.joinNotSetPubkeyHash,
            { s with NodeList := (w.InitJoin cfg.start_mode).2,
                     calls := s.calls ++ [Call.InitJoin cfg.start_mode] })
        else
          (Flow.ok (some jm, w.NewNodeInfo cfg.local_host jm.LocalID cfg.local_pubkey
              cfg.local_pubkey_hash, jm.LocalID),
            { s with NodeList := (w.InitJoin cfg.start_mode).2,
                     calls := s.calls ++ [Call.InitJoin cfg.start_mode,
                       Call.NewNodeInfo cfg.local_host jm.LocalID cfg.local_pubkey
                         cfg.local_pubkey_hash] }) := by
  unfold selectNodeInfo
  have hN' : ¬ c.ModeJoin = c.ModeNormal := by rw [← hJ]; exact hN
  cases hg : (w.InitJoin c.ModeJoin).1 with
  | none =>
    simp [bind_apply, pure_apply, panic, getNodeList, setNodeList, call, hN', hJ, hg]
  | some jm =>
    by_cases h1 : jm.LocalID > ((w.InitJoin c.ModeJoin).2.length : Int) <;>
      by_cases h2 : cfg.local_host = "" <;> by_cases h3 : cfg.local_pubkey = "" <;>
      by_cases h4 : cfg.local_pubkey_hash = "" <;>
      simp [bind_apply, pure_apply, panic, getNodeList, setNodeList, call, hN', hJ, hg,
        h1, h2, h3, h4]

theorem selectNodeInfo_observer (c : ModeConsts) (cfg : Config) (w : World) (s : Proc)
    (hN : cfg.start_mode ≠ c.ModeNormal) (hJ : cfg.start_mode ≠ c.ModeJoin)
    (hO : cfg.start_mode = c.ModeWatch ∨ cfg.start_mode = c.ModeTest) :
    selectNodeInfo c cfg w s =
      match w.InitObserver.1 with
      | some err => (Flow.panicked (Panic.initObserverErr err),
          { s with NodeList := w.InitObserver.2, calls := s.calls ++ [Call.InitObserver] })
      | none => (Flow.ok (none, { NodeInfo.zero with Id := 0 }, cfg.local_id),
          { s with NodeList := w.InitObserver.2, calls := s.calls ++ [Call.InitObserver] }) := by
  unfold selectNodeInfo
  cases hg : w.InitObserver.1 with
  | none => simp [bind_apply, pure_apply, panic, setNodeList, call, hN, hJ, hO, hg]
  | some err => simp [bind_apply, pure_apply, panic, setNodeList, call, hN, hJ, hO, hg]

theorem selectNodeInfo_other (c : ModeConsts) (cfg : Config) (w : World) (s : Proc)
    (hN : cfg.start_mode ≠ c.ModeNormal) (hJ : cfg.start_mode ≠ c.ModeJoin)
    (hW : cfg.start_mode ≠ c.ModeWatch) (hT : cfg.start_mode ≠ c.ModeTest) :
    selectNodeInfo c cfg w s = (Flow.ok (none, NodeInfo.zero, cfg.local_id), s) := by
  unfold selectNodeInfo
  simp [pure_apply, hN, hJ, hW, hT]

theorem run_cpuFail (c : ModeConsts) (cfg : Config) (w : World)
    (h : cfg.cpuProfile.length > 0 ∧ w.createCPUErr = true) :
    run c cfg w = ⟨[Call.ReadConfig, Call.osCreate cfg.cpuProfile],
      Outcome.panicked Panic.createCpuProfileFailed, w.NodeList0⟩ := by
  unfold run runBody
  simp [bind_apply, call, setupProfiles_eq, h, finish]

theorem run_memFail (c : ModeConsts) (cfg : Config) (w : World)
    (h1 : ¬ (cfg.cpuProfile.length > 0 ∧ w.createCPUErr = true))
    (h : cfg.memProfile.length > 0 ∧ w.createMemErr = true) :
    run c cfg w = ⟨[Call.ReadConfig] ++ ((if cfg.cpuProfile.length > 0 then
        [Call.osCreate cfg.cpuProfile, Call.StartCPUProfile] else []) ++
        [Call.osCreate cfg.memProfile]) ++ cpuDefers cfg,
      Outcome.panicked Panic.createMemProfileFailed, w.NodeList0⟩ := by
  unfold run runBody
  simp only [bind_apply, call, setupProfiles_eq, if_neg h1, if_pos h, finish]
  simp

theorem run_profilesOk (c : ModeConsts) (cfg : Config) (w : World) (h : ProfilesOk cfg w) :
    run c cfg w = finish
      ((selectNodeInfo c cfg w >>= fun r => startNode c cfg w r.1 r.2.1 r.2.2)
        ⟨w.NodeList0, preCalls cfg, profDefers cfg⟩) := by
  unfold run runBody preCalls
  simp only [bind_apply, call, setupProfiles_eq, if_neg h.1, if_neg h.2]
  by_cases hp : cfg.pprof_host.length > 0
  · simp [hp, bind_apply, call]
  · simp [hp, bind_apply, call, pure_apply]

theorem finish_startNode (c : ModeConsts) (cfg : Config) (w : World)
    (jm : Option JoinMsg) (ni : NodeInfo) (id : Int) (nl : List NodeInfo) (before : List Call) :
    finish (startNode c cfg w jm ni id ⟨nl, before, profDefers cfg⟩) =
      if noNodeInfo c cfg ni then stopped cfg before (Panic.getNoNodeInfo cfg.start_mode) nl
      else if id < 0 then stopped cfg before (Panic.invalidNodeid id nl.length) nl
      else started c cfg w before ni jm nl := by
  rw [startNode_eq]
  by_cases h1 : noNodeInfo c cfg ni
  · simp [h1, finish, stopped]
  · by_cases h2 : id < 0
    · simp [h1, h2, finish, stopped]
    · by_cases h3 : w.sigint = true
      · simp [h1, h2, h3, finish, started]
      · simp [h1, h2, h3, finish, started]

theorem run_case (c : ModeConsts) (cfg : Config) (w : World) : RunCase c cfg w (run c cfg w) := by
  by_cases hcpu : cfg.cpuProfile.length > 0 ∧ w.createCPUErr = true
  · rw [run_cpuFail c cfg w hcpu]
    exact RunCase.cpuFail hcpu
  by_cases hmem : cfg.memProfile.length > 0 ∧ w.createMemErr = true
  · rw [run_memFail c cfg w hcpu hmem]
    exact RunCase.memFail hcpu hmem
  have hp : ProfilesOk cfg w := ⟨hcpu, hmem⟩
  rw [run_profilesOk c cfg w hp, bind_apply]
  by_cases hN : cfg.start_mode = c.ModeNormal
  · rw [selectNodeInfo_normal c cfg w _ hN]
    by_cases h0 : 0 ≤ cfg.local_id
    · cases hg : w.Init[cfg.local_id.toNat]? with
      | none =>
        have hlen : (w.Init.length : Int) ≤ cfg.local_id := by
          have := List.getElem?_eq_none_iff.mp hg
          omega
        simp only [if_pos h0, hg]
        exact RunCase.normalOutOfRange hp hN (Or.inr hlen)
      | some ni =>
        simp only [if_pos h0, hg, finish_startNode]
        by_cases h1 : noNodeInfo c cfg ni
        · rw [if_pos h1]
          exact RunCase.normalNoInfo hp hN h0 ni hg h1
        · have h2 : ¬ cfg.local_id < 0 := by omega
          rw [if_neg h1, if_neg h2]
          exact RunCase.normalStarted hp hN h0 ni hg h1
    · simp only [if_neg h0]
      exact RunCase.normalOutOfRange hp hN (Or.inl (by omega))
  by_cases hJ : cfg.start_mode = c.ModeJoin
  · rw [selectNodeInfo_join c cfg w _ hN hJ]
    cases hg : (w.InitJoin cfg.start_mode).1 with
    | none => exact RunCase.joinNil hp hN hJ hg
    | some jm =>
      simp only []
      by_cases h1 : jm.LocalID > ((w.InitJoin cfg.start_mode).2.length : Int)
      · rw [if_pos h1]
        exact RunCase.joinInvalid hp hN hJ jm hg h1
      rw [if_neg h1]
      by_cases h2 : cfg.local_host = ""
      · rw [if_pos h2]
        exact RunCase.joinNoHost hp hN hJ jm hg h1 h2
      rw [if_neg h2]
      by_cases h3 : cfg.local_pubkey = ""
      · rw [if_pos h3]
        exact RunCase.joinNoPubkey hp hN hJ jm hg h1 h2 h3
      rw [if_neg h3]
      by_cases h4 : cfg.local_pubkey_hash = ""
      · rw [if_pos h4]
        exact RunCase.joinNoHash hp hN hJ jm hg h1 h2 h3 h4
      rw [if_neg h4]
      simp only [finish_startNode]
      by_cases h5 : noNodeInfo c cfg (w.NewNodeInfo cfg.local_host jm.LocalID cfg.local_pubkey
        cfg.local_pubkey_hash)
      · rw [if_pos h5]
        exact RunCase.joinNoInfo hp hN hJ jm hg h1 h2 h3 h4 h5
      rw [if_neg h5]
      by_cases h6 : jm.LocalID < 0
      · rw [if_pos h6]
        exact RunCase.joinNegative hp hN hJ jm hg h1 h2 h3 h4 h5 h6
      rw [if_neg h6]
      exact RunCase.joinStarted hp hN hJ jm hg h1 h2 h3 h4 h5 h6
  by_cases hO : cfg.start_mode = c.ModeWatch ∨ cfg.start_mode = c.ModeTest
  · rw [selectNodeInfo_observer c cfg w _ hN hJ hO]
    cases hg : w.InitObserver.1 with
    | some err => exact RunCase.observerErr hp hN hJ hO err hg
    | none =>
      simp only [finish_startNode]
      have h1 : ¬ noNodeInfo c cfg { NodeInfo.zero with Id := 0 } := by
        unfold noNodeInfo
        rcases hO with h | h <;> simp [h]
      rw [if_neg h1]
      by_cases h6 : cfg.local_id < 0
      · rw [if_pos h6]
        exact RunCase.observerNegative hp hN hJ hO hg h6
      · rw [if_neg h6]
        exact RunCase.observerStarted hp hN hJ hO hg h6
  · have hW : cfg.start_mode ≠ c.ModeWatch := fun h => hO (Or.inl h)
    have hT : cfg.start_mode ≠ c.ModeTest := fun h => hO (Or.inr h)
    rw [selectNodeInfo_other c cfg w _ hN hJ hW hT]
    simp only [finish_startNode]
    have h1 : noNodeInfo c cfg NodeInfo.zero := ⟨hW, hT, rfl⟩
    rw [if_pos h1]
    exact RunCase.otherMode hp hN hJ hW hT

/-! ### Membership in the recorded calls -/

theorem isSetup_of_mem_cpuDefers (cfg : Config) (x : Call) (h : x ∈ cpuDefers cfg) :
    x.isSetup = true := by
  unfold cpuDefers at h
  split_ifs at h
  · simp at h
    subst h
    rfl
  · simp at h

theorem isSetup_of_mem_profDefers (cfg : Config) (x : Call) (h : x ∈ profDefers cfg) :
    x.isSetup = true := by
  unfold profDefers at h
  rcases List.mem_append.mp h with h | h
  · split_ifs at h
    · simp at h
      subst h
      rfl
    · simp at h
  · exact isSetup_of_mem_cpuDefers cfg x h

theorem isSetup_of_mem_preCalls (cfg : Config) (x : Call) (h : x ∈ preCalls cfg) :
    x.isSetup = true := by
  unfold preCalls profCalls at h
  simp only [List.mem_append, List.mem_singleton] at h
  rcases h with ((h | h | h) | h) | h
  · subst h; rfl
  · split_ifs at h <;> simp at h
    rcases h with h | h <;> subst h <;> rfl
  · split_ifs at h <;> simp at h
    subst h; rfl
  · split_ifs at h <;> simp at h
    subst h; rfl
  · subst h; rfl

theorem not_mem_cpuDefers (cfg : Config) (x : Call) (hx : x.isSetup = false) :
    (x ∈ cpuDefers cfg) = False := by
  apply eq_false
  intro h
  rw [isSetup_of_mem_cpuDefers cfg x h] at hx
  exact Bool.noConfusion hx

theorem not_mem_profDefers (cfg : Config) (x : Call) (hx : x.isSetup = false) :
    (x ∈ profDefers cfg) = False := by
  apply eq_false
  intro h
  rw [isSetup_of_mem_profDefers cfg x h] at hx
  exact Bool.noConfusion hx

theorem not_mem_preCalls (cfg : Config) (x : Call) (hx : x.isSetup = false) :
    (x ∈ preCalls cfg) = False := by
  apply eq_false
  intro h
  rw [isSetup_of_mem_preCalls cfg x h] at hx
  exact Bool.noConfusion hx

theorem mem_startCalls (c : ModeConsts) (cfg : Config) (w : World) (ni : NodeInfo)
    (jm : Option JoinMsg) (x : Call) :
    x ∈ startCalls c cfg w ni jm ↔
      x = Call.RunNew ni (multiSigsOf jm) ∨
      x = Call.StartHTTP cfg.local_http_user cfg.local_http_pwd cfg.local_http_port ∨
      (cfg.need_metrics = true ∧ x = Call.baseMetrics) ∨
      x = Call.Register (handlerOf c cfg) ∨ x = Call.Notify ∨
      (w.sigint = true ∧ x = Call.Handle) := by
  unfold startCalls
  by_cases h1 : cfg.need_metrics = true <;> by_cases h2 : w.sigint = true <;>
    simp [h1, h2]

theorem started_not_panicked (b : Prop) [Decidable b] (p : Panic) :
    ((if b then Outcome.returned else Outcome.blocked) = Outcome.panicked p) = False := by
  split_ifs <;> simp

/-! ### The claims -/

/-- C2: `run` aborts only before the node participates.  If `run` ends in a
panic then neither `node.RunNew` nor `httpsvr.StartHTTP` has been called, and
once `node.RunNew` has been called `run` does not end in a panic. -/
theorem C2_abort_only_before_start (c : ModeConsts) (cfg : Config) (w : World) :
    ((run c cfg w).aborted → ¬ (run c cfg w).startedNode ∧ ¬ (run c cfg w).startedHTTP) ∧
    ((run c cfg w).startedNode → ¬ (run c cfg w).aborted) := by
  have h := run_case c cfg w
  generalize run c cfg w = r at h ⊢
  cases h <;>
    simp [Result.aborted, Result.startedNode, Result.startedHTTP, stopped, started,
      mem_startCalls, not_mem_preCalls, not_mem_profDefers, not_mem_cpuDefers, Call.isSetup,
      started_not_panicked]

/-- C2 at a Normal start with an out-of-range id: the run aborts, and neither
the node nor the HTTP server has been started. -/
theorem C2_abort_only_before_start_witness :
    (run modes (cfg0 0 4) (world0 4 [])).aborted ∧
    ¬ (run modes (cfg0 0 4) (world0 4 [])).startedNode ∧
    ¬ (run modes (cfg0 0 4) (world0 4 [])).startedHTTP :=
  ⟨by decide, (C2_abort_only_before_start modes (cfg0 0 4) (world0 4 [])).1 (by decide)⟩

/-- C1: the SIGINT handler that `run` registers is `node.Stop` if and only if
the start mode is Watch or Test, and `node.LeaveCluster` for every other start
mode. -/
theorem C1_sigint_handler (c : ModeConsts) (cfg : Config) (w : World) (h : Handler)
    (hreg : Call.Register h ∈ (run c cfg w).calls) :
    (h = Handler.Stop ↔ (cfg.start_mode = c.ModeWatch ∨ cfg.start_mode = c.ModeTest)) ∧
    (¬ (cfg.start_mode = c.ModeWatch ∨ cfg.start_mode = c.ModeTest) →
      h = Handler.LeaveCluster) := by
  have hc := run_case c cfg w
  have key : h = handlerOf c cfg := by
    generalize run c cfg w = r at hc hreg
    cases hc <;>
      simp [Result.aborted, Result.startedNode, Result.startedHTTP, stopped, started,
      mem_startCalls, not_mem_preCalls, not_mem_profDefers, not_mem_cpuDefers, Call.isSetup,
      started_not_panicked] at hreg <;>
      exact hreg
  subst key
  unfold handlerOf
  by_cases hW : cfg.start_mode = c.ModeWatch <;> by_cases hT : cfg.start_mode = c.ModeTest <;>
    simp [hW, hT]

/-- C1 at a Watch node: the handler registered is `node.Stop`. -/
theorem C1_sigint_handler_witness :
    Call.Register Handler.Stop ∈ (run modes (cfg0 2 0) (world0 4 [])).calls ∧
    (Handler.Stop = Handler.Stop ↔
      ((cfg0 2 0).start_mode = modes.ModeWatch ∨ (cfg0 2 0).start_mode = modes.ModeTest)) :=
  ⟨by decide, (C1_sigint_handler modes (cfg0 2 0) (world0 4 []) Handler.Stop (by decide)).1⟩

/-- Whenever the node is started, a SIGINT handler is registered. -/
theorem registers_when_started (c : ModeConsts) (cfg : Config) (w : World)
    (hs : (run c cfg w).startedNode) : ∃ h, Call.Register h ∈ (run c cfg w).calls := by
  have hc := run_case c cfg w
  generalize run c cfg w = r at hc hs ⊢
  cases hc <;>
    simp [Result.aborted, Result.startedNode, Result.startedHTTP, stopped, started,
      mem_startCalls, not_mem_preCalls, not_mem_profDefers, not_mem_cpuDefers, Call.isSetup,
      started_not_panicked] at hs ⊢

/-- C6: for every start mode, a negative effective node id makes `run` abort
without ever calling `node.RunNew`. -/
theorem C6_negative_id_aborts (c : ModeConsts) (cfg : Config) (w : World) (id : Int)
    (hid : effectiveNodeId c cfg w = some id) (hneg : id < 0) :
    (run c cfg w).aborted ∧ ¬ (run c cfg w).startedNode := by
  have hc := run_case c cfg w
  unfold effectiveNodeId at hid
  generalize run c cfg w = r at hc ⊢
  cases hc <;>
    simp_all [Result.aborted, Result.startedNode, Result.startedHTTP, stopped, started,
      mem_startCalls, not_mem_preCalls, not_mem_profDefers, not_mem_cpuDefers, Call.isSetup,
      started_not_panicked] <;>
    omega

/-- C6 at a Watch node whose configured id is -1. -/
theorem C6_negative_id_aborts_witness :
    effectiveNodeId modes (cfg0 2 (-1)) (world0 4 []) = some (-1) ∧
    (run modes (cfg0 2 (-1)) (world0 4 [])).aborted ∧
    ¬ (run modes (cfg0 2 (-1)) (world0 4 [])).startedNode :=
  ⟨by decide, C6_negative_id_aborts modes (cfg0 2 (-1)) (world0 4 []) (-1) (by decide)
    (by decide)⟩

/-- C8: the multi-signature list passed to `node.RunNew` is
`joinMsg.MultiSigInfos` when the start mode is Join and that list is
non-empty, and is empty in every other case; in Normal, Watch and Test modes
no join message is created and the list is empty. -/
theorem C8_multisig_list (c : ModeConsts) (cfg : Config) (w : World)
    (ni : NodeInfo) (ms : List MultiSigInfo) (hd : c.Distinct)
    (hrun : Call.RunNew ni ms ∈ (run c cfg w).calls) :
    (cfg.start_mode = c.ModeJoin →
      ∃ jm, (w.InitJoin cfg.start_mode).1 = some jm ∧
        (jm.MultiSigInfos ≠ [] → ms = jm.MultiSigInfos) ∧
        (jm.MultiSigInfos = [] → ms = [])) ∧
    (cfg.start_mode ≠ c.ModeJoin → ms = []) ∧
    (cfg.start_mode = c.ModeNormal ∨ cfg.start_mode = c.ModeWatch ∨
        cfg.start_mode = c.ModeTest →
      ms = [] ∧ ∀ m, Call.InitJoin m ∉ (run c cfg w).calls) := by
  have hc := run_case c cfg w
  obtain ⟨d1, d2, d3, d4, d5, d6⟩ := hd
  generalize run c cfg w = r at hc hrun ⊢
  cases hc with
  | normalStarted hp hN h0 ni2 hg h =>
    simp [Result.aborted, Result.startedNode, Result.startedHTTP, stopped, started,
      mem_startCalls, not_mem_preCalls, not_mem_profDefers, not_mem_cpuDefers, Call.isSetup,
      started_not_panicked, multiSigsOf] at hrun ⊢
    simp [hrun.2, hN, d1]
  | joinStarted hp hN hJ jm hg h1 h2 h3 h4 h5 h6 =>
    simp [Result.aborted, Result.startedNode, Result.startedHTTP, stopped, started,
      mem_startCalls, not_mem_preCalls, not_mem_profDefers, not_mem_cpuDefers, Call.isSetup,
      started_not_panicked, multiSigsOf] at hrun
    rw [← hJ] at d1 d4 d5
    refine ⟨fun _ => ⟨jm, hg, ?_, ?_⟩, fun h => absurd hJ h, ?_⟩
    · intro hne
      rw [hrun.2, if_pos (List.length_pos.mpr hne)]
    · intro he
      rw [hrun.2, he]
      simp
    · rintro (h | h | h)
      · exact absurd h hN
      · exact absurd h d4
      · exact absurd h d5
  | observerStarted hp hN hJ hO hg h6 =>
    simp [Result.aborted, Result.startedNode, Result.startedHTTP, stopped, started,
      mem_startCalls, not_mem_preCalls, not_mem_profDefers, not_mem_cpuDefers, Call.isSetup,
      started_not_panicked, multiSigsOf] at hrun ⊢
    simp [hrun.2, hJ]
  | _ => simp [Result.aborted, Result.startedNode, Result.startedHTTP, stopped, started,
      mem_startCalls, not_mem_preCalls, not_mem_profDefers, not_mem_cpuDefers, Call.isSetup,
      started_not_panicked] at hrun

/-- C8 at a joining node whose join message carries one multi-signature
record. -/
theorem C8_multisig_list_witness :
    Call.RunNew ⟨4, "n4:10000", "pk4"⟩ [⟨7⟩] ∈ (run modes (cfg0 1 0) (world0 4 [⟨7⟩])).calls ∧
    ∃ jm, ((world0 4 [⟨7⟩]).InitJoin (cfg0 1 0).start_mode).1 = some jm ∧
      (jm.MultiSigInfos ≠ [] → [(⟨7⟩ : MultiSigInfo)] = jm.MultiSigInfos) ∧
      (jm.MultiSigInfos = [] → [(⟨7⟩ : MultiSigInfo)] = []) :=
  ⟨by decide, (C8_multisig_list modes (cfg0 1 0) (world0 4 [⟨7⟩]) ⟨4, "n4:10000", "pk4"⟩ [⟨7⟩]
    (by decide) (by decide)).1 rfl⟩

/-- C4: in Join mode, if any of `DGW.local_host`, `DGW.local_pubkey` or
`KEYSTORE.local_pubkey_hash` is empty, `run` aborts and neither
`cluster.NewNodeInfo` nor `node.RunNew` is called; when the join message has
been obtained, its id passes the cluster-size check and the three settings are
non-empty, the identity is built by
`cluster.NewNodeInfo(local_host, joinMsg.LocalID, local_pubkey, local_pubkey_hash)`
and it is the only identity `node.RunNew` can be called with. -/
theorem C4_join_identity (c : ModeConsts) (cfg : Config) (w : World)
    (hd : c.ModeNormal ≠ c.ModeJoin) (hJ : cfg.start_mode = c.ModeJoin) :
    ((cfg.local_host = "" ∨ cfg.local_pubkey = "" ∨ cfg.local_pubkey_hash = "") →
      (run c cfg w).aborted ∧ ¬ (run c cfg w).startedNode ∧
      ∀ host id pubKey pubKeyHash,
        Call.NewNodeInfo host id pubKey pubKeyHash ∉ (run c cfg w).calls) ∧
    (∀ jm, Call.InitJoin cfg.start_mode ∈ (run c cfg w).calls →
      (w.InitJoin cfg.start_mode).1 = some jm →
      ¬ jm.LocalID > ((w.InitJoin cfg.start_mode).2.length : Int) →
      cfg.local_host ≠ "" → cfg.local_pubkey ≠ "" → cfg.local_pubkey_hash ≠ "" →
      Call.NewNodeInfo cfg.local_host jm.LocalID cfg.local_pubkey cfg.local_pubkey_hash
          ∈ (run c cfg w).calls ∧
      ∀ ni ms, Call.RunNew ni ms ∈ (run c cfg w).calls →
        ni = w.NewNodeInfo cfg.local_host jm.LocalID cfg.local_pubkey
          cfg.local_pubkey_hash) := by
  have hc := run_case c cfg w
  have hN : cfg.start_mode ≠ c.ModeNormal := by rw [hJ]; exact fun h => hd h.symm
  generalize run c cfg w = r at hc ⊢
  cases hc <;>
    first
    | contradiction
    | (simp_all [Result.aborted, Result.startedNode, Result.startedHTTP, stopped, started,
      mem_startCalls, not_mem_preCalls, not_mem_profDefers, not_mem_cpuDefers, Call.isSetup,
      started_not_panicked])

/-- C4 at a joining node with id 4 in a cluster of four: the identity is built
from the three settings and the id of the join message. -/
theorem C4_join_identity_witness :
    Call.NewNodeInfo "n4:10000" 4 "pk4" "pkh4" ∈ (run modes (cfg0 1 0) (world0 4 [])).calls ∧
    ∀ ni ms, Call.RunNew ni ms ∈ (run modes (cfg0 1 0) (world0 4 [])).calls →
      ni = (world0 4 []).NewNodeInfo "n4:10000" 4 "pk4" "pkh4" :=
  (C4_join_identity modes (cfg0 1 0) (world0 4 []) (by decide) rfl).2 ⟨4, []⟩
    (by decide) rfl (by decide) (by decide) (by decide) (by decide)

/-- C7: in Join mode the id taken from the join message is rejected by the
cluster-size check exactly when it is strictly greater than the length of
`cluster.NodeList`, so an id equal to the cluster size passes that check; in
Normal mode an id equal to the cluster size is rejected (`run` aborts and the
node is not started). -/
theorem C7_join_id_bound (c : ModeConsts) (cfg : Config) (w : World)
    (hd : c.ModeNormal ≠ c.ModeJoin) :
    (∀ jm, cfg.start_mode = c.ModeJoin →
      Call.InitJoin cfg.start_mode ∈ (run c cfg w).calls →
      (w.InitJoin cfg.start_mode).1 = some jm →
      ((run c cfg w).outcome = Outcome.panicked
          (Panic.joinInvalidNodeid jm.LocalID (w.InitJoin cfg.start_mode).2.length) ↔
        jm.LocalID > ((w.InitJoin cfg.start_mode).2.length : Int)) ∧
      (jm.LocalID = ((w.InitJoin cfg.start_mode).2.length : Int) →
        ∀ id n, (run c cfg w).outcome ≠ Outcome.panicked (Panic.joinInvalidNodeid id n))) ∧
    (cfg.start_mode = c.ModeNormal → cfg.local_id = (w.Init.length : Int) →
      (run c cfg w).aborted ∧ ¬ (run c cfg w).startedNode) := by
  have hc := run_case c cfg w
  generalize run c cfg w = r at hc ⊢
  cases hc with
  | normalStarted hp hN h0 ni hg h =>
    have hlt := (List.getElem?_eq_some.mp hg).1
    simp_all [Result.aborted, Result.startedNode, Result.startedHTTP, stopped, started,
      mem_startCalls, not_mem_preCalls, not_mem_profDefers, not_mem_cpuDefers, Call.isSetup,
      started_not_panicked]
    omega
  | _ =>
    simp_all [Result.aborted, Result.startedNode, Result.startedHTTP, stopped, started,
      mem_startCalls, not_mem_preCalls, not_mem_profDefers, not_mem_cpuDefers, Call.isSetup,
      started_not_panicked] <;>
    omega

/-- C7 at a cluster of four: a joining node with id 4 is not rejected by the
cluster-size check, a joining node with id 5 is. -/
theorem C7_join_id_bound_witness :
    ((run modes (cfg0 1 0) (world0 4 [])).outcome ≠
        Outcome.panicked (Panic.joinInvalidNodeid 4 4)) ∧
    ((run modes (cfg0 1 0) (world0 5 [])).outcome =
        Outcome.panicked (Panic.joinInvalidNodeid 5 4)) :=
  ⟨fun h => absurd
      (((C7_join_id_bound modes (cfg0 1 0) (world0 4 []) (by decide)).1 ⟨4, []⟩ rfl
        (by decide) rfl).1.mp h) (by decide),
    ((C7_join_id_bound modes (cfg0 1 0) (world0 5 []) (by decide)).1 ⟨5, []⟩ rfl
      (by decide) rfl).1.mpr (by decide)⟩

theorem observer_runNew (c : ModeConsts) (cf : Config) (w : World)
    (hN : cf.start_mode ≠ c.ModeNormal) (hJ : cf.start_mode ≠ c.ModeJoin)
    (hO : cf.start_mode = c.ModeWatch ∨ cf.start_mode = c.ModeTest)
    (hpc : ProfilesOk cf w) (hok : w.InitObserver.1 = none) (hidc : 0 ≤ cf.local_id)
    (ni : NodeInfo) (ms : List MultiSigInfo) :
    Call.RunNew ni ms ∈ (run c cf w).calls ↔ (ni = ⟨0, "", ""⟩ ∧ ms = []) := by
  have hc := run_case c cf w
  generalize run c cf w = r at hc ⊢
  cases hc with
  | observerStarted hp hN2 hJ2 hO2 hg h6 =>
    simp [Result.aborted, Result.startedNode, Result.startedHTTP, stopped, started,
      mem_startCalls, not_mem_preCalls, not_mem_profDefers, not_mem_cpuDefers, Call.isSetup,
      started_not_panicked, multiSigsOf, NodeInfo.zero]
  | observerErr hp hN2 hJ2 hO2 err hg => rw [hok] at hg; cases hg
  | observerNegative hp hN2 hJ2 hO2 hg h6 => omega
  | otherMode hp hN2 hJ2 hW hT => rcases hO with h | h <;> contradiction
  | cpuFail h => exact absurd h hpc.1
  | memFail h1 h => exact absurd h hpc.2
  | _ => contradiction

/-- C10: in Watch or Test mode, when `node.InitObserver` is called and
succeeds and `DGW.local_id` is non-negative, `node.RunNew` is called with the
`NodeInfo` whose `Id` is 0 and whose other fields are zero, and with the empty
multi-signature list; a second run that differs only in `DGW.local_id`,
`DGW.local_host` and `DGW.local_pubkey` passes the same arguments. -/
theorem C10_observer_identity (c : ModeConsts) (cfg cfg2 : Config) (w : World)
    (hd : c.Distinct)
    (hO : cfg.start_mode = c.ModeWatch ∨ cfg.start_mode = c.ModeTest)
    (hcall : Call.InitObserver ∈ (run c cfg w).calls)
    (hok : w.InitObserver.1 = none)
    (hid : 0 ≤ cfg.local_id)
    (hsame : cfg2 = { cfg with local_id := cfg2.local_id, local_host := cfg2.local_host,
                               local_pubkey := cfg2.local_pubkey })
    (hid2 : 0 ≤ cfg2.local_id) :
    Call.RunNew ⟨0, "", ""⟩ [] ∈ (run c cfg w).calls ∧
    (∀ ni ms, Call.RunNew ni ms ∈ (run c cfg w).calls → ni = ⟨0, "", ""⟩ ∧ ms = []) ∧
    (∀ ni ms, Call.RunNew ni ms ∈ (run c cfg2 w).calls ↔
      Call.RunNew ni ms ∈ (run c cfg w).calls) := by
  obtain ⟨d1, d2, d3, d4, d5, d6⟩ := hd
  have hN : cfg.start_mode ≠ c.ModeNormal := by
    rcases hO with h | h <;> rw [h] <;> intro e
    · exact d2 e.symm
    · exact d3 e.symm
  have hJ : cfg.start_mode ≠ c.ModeJoin := by
    rcases hO with h | h <;> rw [h] <;> intro e
    · exact d4 e.symm
    · exact d5 e.symm
  have hp : ProfilesOk cfg w := by
    have hc := run_case c cfg w
    generalize run c cfg w = r at hc hcall
    cases hc <;> first | assumption | (simp [Result.aborted, Result.startedNode, Result.startedHTTP, stopped, started,
      mem_startCalls, not_mem_preCalls, not_mem_profDefers, not_mem_cpuDefers, Call.isSetup,
      started_not_panicked] at hcall)
  have hmode2 : cfg2.start_mode = cfg.start_mode := by rw [hsame]
  have hp2 : ProfilesOk cfg2 w := by
    unfold ProfilesOk at hp ⊢
    have e1 : cfg2.cpuProfile = cfg.cpuProfile := by rw [hsame]
    have e2 : cfg2.memProfile = cfg.memProfile := by rw [hsame]
    rw [e1, e2]
    exact hp
  have hN2 : cfg2.start_mode ≠ c.ModeNormal := by rw [hmode2]; exact hN
  have hJ2 : cfg2.start_mode ≠ c.ModeJoin := by rw [hmode2]; exact hJ
  have hO2 : cfg2.start_mode = c.ModeWatch ∨ cfg2.start_mode = c.ModeTest := by
    rw [hmode2]; exact hO
  have key := observer_runNew c cfg w hN hJ hO hp hok hid
  have key2 := observer_runNew c cfg2 w hN2 hJ2 hO2 hp2 hok hid2
  refine ⟨(key _ _).mpr ⟨rfl, rfl⟩, fun ni ms h => (key ni ms).mp h, fun ni ms => ?_⟩
  rw [key2, key]

/-- C10 at two Watch nodes that differ in id, host and public key. -/
theorem C10_observer_identity_witness :
    Call.RunNew ⟨0, "", ""⟩ [] ∈ (run modes (cfg0 2 3) (world0 4 [])).calls ∧
    (∀ ni ms, Call.RunNew ni ms ∈ (run modes (cfg0 2 3) (world0 4 [])).calls →
      ni = ⟨0, "", ""⟩ ∧ ms = []) ∧
    (∀ ni ms, Call.RunNew ni ms ∈
        (run modes { cfg0 2 7 with local_host := "other:1", local_pubkey := "pkx" }
          (world0 4 [])).calls ↔
      Call.RunNew ni ms ∈ (run modes (cfg0 2 3) (world0 4 [])).calls) :=
  C10_observer_identity modes (cfg0 2 3)
    { cfg0 2 7 with local_host := "other:1", local_pubkey := "pkx" } (world0 4 [])
    (by decide) (by decide) (by decide) rfl (by decide) rfl (by decide)

/-- C3, as stated, fails: a Normal start of node 0 in a cluster of four, with
every identity item present, aborts because the CPU profile file cannot be
created. -/
theorem C3_counterexample :
    (run modes cfgProfiled worldNoCpuFile).aborted ∧
    ¬ nodeIdInvalid modes cfgProfiled worldNoCpuFile ∧
    ¬ identityMissing modes cfgProfiled worldNoCpuFile := by
  refine ⟨by decide, ?_, ?_⟩
  · simp [nodeIdInvalid, effectiveNodeId, cfgProfiled, worldNoCpuFile, cfg0, world0, modes,
      nodes4]
  · simp [identityMissing, cfgProfiled, worldNoCpuFile, cfg0, world0, modes, nodes4]

/-- C3, amended: if `run` aborts then the node id is invalid for the start
mode, or a required identity item is missing, or a profile file cannot be
created, or `node.InitObserver` returns an error, or `node.InitJoin` returns
no join message. -/
theorem C3_abort_causes (c : ModeConsts) (cfg : Config) (w : World)
    (h : (run c cfg w).aborted) :
    nodeIdInvalid c cfg w ∨ identityMissing c cfg w ∨ ¬ ProfilesOk cfg w ∨
    observerInitFails c cfg w ∨ joinMsgNil c cfg w := by
  have hc := run_case c cfg w
  generalize run c cfg w = r at hc h
  cases hc with
  | cpuFail h1 => exact Or.inr (Or.inr (Or.inl (fun hp => hp.1 h1)))
  | memFail h1 h2 => exact Or.inr (Or.inr (Or.inl (fun hp => hp.2 h2)))
  | normalOutOfRange hp hN h1 =>
    rcases h1 with h1 | h1
    · exact Or.inl (Or.inl ⟨cfg.local_id, by simp [effectiveNodeId, hN], h1⟩)
    · exact Or.inl (Or.inr (Or.inl ⟨hN, h1⟩))
  | normalNoInfo hp hN h0 ni hg h1 =>
    refine Or.inr (Or.inl ?_)
    unfold identityMissing
    rw [if_pos hN]
    exact ⟨ni, hg, h1.2.2⟩
  | normalStarted hp hN h0 ni hg h1 => simp [Result.aborted, Result.startedNode, Result.startedHTTP, stopped, started,
      mem_startCalls, not_mem_preCalls, not_mem_profDefers, not_mem_cpuDefers, Call.isSetup,
      started_not_panicked] at h
  | joinNil hp hN hJ hg => exact Or.inr (Or.inr (Or.inr (Or.inr ⟨hN, hJ, hg⟩)))
  | joinInvalid hp hN hJ jm hg h1 => exact Or.inl (Or.inr (Or.inr ⟨hN, hJ, jm, hg, h1⟩))
  | joinNoHost hp hN hJ jm hg h1 h2 =>
    refine Or.inr (Or.inl ?_)
    unfold identityMissing
    rw [if_neg hN, if_pos hJ]
    exact Or.inl h2
  | joinNoPubkey hp hN hJ jm hg h1 h2 h3 =>
    refine Or.inr (Or.inl ?_)
    unfold identityMissing
    rw [if_neg hN, if_pos hJ]
    exact Or.inr (Or.inl h3)
  | joinNoHash hp hN hJ jm hg h1 h2 h3 h4 =>
    refine Or.inr (Or.inl ?_)
    unfold identityMissing
    rw [if_neg hN, if_pos hJ]
    exact Or.inr (Or.inr (Or.inl h4))
  | joinNoInfo hp hN hJ jm hg h1 h2 h3 h4 h5 =>
    refine Or.inr (Or.inl ?_)
    unfold identityMissing
    rw [if_neg hN, if_pos hJ]
    exact Or.inr (Or.inr (Or.inr ⟨jm, hg, h5.2.2⟩))
  | joinNegative hp hN hJ jm hg h1 h2 h3 h4 h5 h6 =>
    refine Or.inl (Or.inl ⟨jm.LocalID, ?_, h6⟩)
    unfold effectiveNodeId
    rw [if_neg hN, if_pos hJ, hg]
    rfl
  | joinStarted hp hN hJ jm hg h1 h2 h3 h4 h5 h6 => simp [Result.aborted, Result.startedNode, Result.startedHTTP, stopped, started,
      mem_startCalls, not_mem_preCalls, not_mem_profDefers, not_mem_cpuDefers, Call.isSetup,
      started_not_panicked] at h
  | observerErr hp hN hJ hO err hg =>
    exact Or.inr (Or.inr (Or.inr (Or.inl ⟨hN, hJ, hO, by simp [hg]⟩)))
  | observerNegative hp hN hJ hO hg h6 =>
    refine Or.inl (Or.inl ⟨cfg.local_id, ?_, h6⟩)
    unfold effectiveNodeId
    rw [if_neg hN, if_neg hJ]
  | observerStarted hp hN hJ hO hg h6 => simp [Result.aborted, Result.startedNode, Result.startedHTTP, stopped, started,
      mem_startCalls, not_mem_preCalls, not_mem_profDefers, not_mem_cpuDefers, Call.isSetup,
      started_not_panicked] at h
  | otherMode hp hN hJ hW hT =>
    refine Or.inr (Or.inl ?_)
    unfold identityMissing
    rw [if_neg hN, if_neg hJ, if_neg (by simp [hW, hT])]
    rfl

/-- C3, amended, at the start of node 0 whose CPU profile file cannot be
created: the abort is accounted for by the profile file. -/
theorem C3_abort_causes_witness :
    (run modes cfgProfiled worldNoCpuFile).aborted ∧
    (nodeIdInvalid modes cfgProfiled worldNoCpuFile ∨
      identityMissing modes cfgProfiled worldNoCpuFile ∨
      ¬ ProfilesOk cfgProfiled worldNoCpuFile ∨
      observerInitFails modes cfgProfiled worldNoCpuFile ∨
      joinMsgNil modes cfgProfiled worldNoCpuFile) :=
  ⟨by decide, C3_abort_causes modes cfgProfiled worldNoCpuFile (by decide)⟩

/-- C9, as stated, fails: a start mode that is none of the four known modes
does not always abort with the message "get no node info"; when the memory
profile file cannot be created it aborts with "create mem profile failed". -/
theorem C9_counterexample :
    cfgUnknownMode.start_mode ≠ modes.ModeNormal ∧ cfgUnknownMode.start_mode ≠ modes.ModeJoin ∧
    cfgUnknownMode.start_mode ≠ modes.ModeWatch ∧ cfgUnknownMode.start_mode ≠ modes.ModeTest ∧
    (run modes cfgUnknownMode worldNoMemFile).outcome =
      Outcome.panicked Panic.createMemProfileFailed ∧
    (run modes cfgUnknownMode worldNoMemFile).outcome ≠
      Outcome.panicked (Panic.getNoNodeInfo cfgUnknownMode.start_mode) := by
  decide

/-- C9, amended: for every start mode other than Watch and Test,
`node.RunNew` is called only with a `NodeInfo` whose Url is non-empty; a start
mode that is none of Normal, Join, Watch, Test leaves `nodeInfo` at its zero
value and always aborts before the node is started, with "get no node info"
when no profile file fails to be created and with the profile panic
otherwise. -/
theorem C9_url_required (c : ModeConsts) (cfg : Config) (w : World)
    (hW : cfg.start_mode ≠ c.ModeWatch) (hT : cfg.start_mode ≠ c.ModeTest) :
    (∀ ni ms, Call.RunNew ni ms ∈ (run c cfg w).calls → ni.Url ≠ "") ∧
    (cfg.start_mode ≠ c.ModeNormal → cfg.start_mode ≠ c.ModeJoin →
      (∀ s, selectNodeInfo c cfg w s = (Flow.ok (none, NodeInfo.zero, cfg.local_id), s)) ∧
      (run c cfg w).aborted ∧ ¬ (run c cfg w).startedNode ∧
      (ProfilesOk cfg w →
        (run c cfg w).outcome = Outcome.panicked (Panic.getNoNodeInfo cfg.start_mode)) ∧
      (¬ ProfilesOk cfg w →
        (run c cfg w).outcome = Outcome.panicked Panic.createCpuProfileFailed ∨
        (run c cfg w).outcome = Outcome.panicked Panic.createMemProfileFailed)) := by
  have hc := run_case c cfg w
  refine ⟨?_, fun hN hJ => ⟨fun s => selectNodeInfo_other c cfg w s hN hJ hW hT, ?_⟩⟩
  · intro ni ms hrun
    generalize run c cfg w = r at hc hrun
    cases hc with
    | normalStarted hp hN h0 ni2 hg h =>
      simp [Result.aborted, Result.startedNode, Result.startedHTTP, stopped, started,
      mem_startCalls, not_mem_preCalls, not_mem_profDefers, not_mem_cpuDefers, Call.isSetup,
      started_not_panicked] at hrun
      rw [hrun.1]
      intro hu
      exact h ⟨hW, hT, hu⟩
    | joinStarted hp hN hJ jm hg h1 h2 h3 h4 h5 h6 =>
      simp [Result.aborted, Result.startedNode, Result.startedHTTP, stopped, started,
      mem_startCalls, not_mem_preCalls, not_mem_profDefers, not_mem_cpuDefers, Call.isSetup,
      started_not_panicked] at hrun
      rw [hrun.1]
      intro hu
      exact h5 ⟨hW, hT, hu⟩
    | observerStarted hp hN hJ hO hg h6 =>
      rcases hO with h | h
      · exact absurd h hW
      · exact absurd h hT
    | _ => simp [Result.aborted, Result.startedNode, Result.startedHTTP, stopped, started,
      mem_startCalls, not_mem_preCalls, not_mem_profDefers, not_mem_cpuDefers, Call.isSetup,
      started_not_panicked] at hrun
  · generalize run c cfg w = r at hc ⊢
    cases hc with
    | cpuFail h => simp [Result.aborted, Result.startedNode, Result.startedHTTP, stopped, started,
      mem_startCalls, not_mem_preCalls, not_mem_profDefers, not_mem_cpuDefers, Call.isSetup,
      started_not_panicked, ProfilesOk, h]
    | memFail h1 h => simp [Result.aborted, Result.startedNode, Result.startedHTTP, stopped, started,
      mem_startCalls, not_mem_preCalls, not_mem_profDefers, not_mem_cpuDefers, Call.isSetup,
      started_not_panicked, ProfilesOk, h]
    | otherMode hp hN2 hJ2 hW2 hT2 => simp [Result.aborted, Result.startedNode, Result.startedHTTP, stopped, started,
      mem_startCalls, not_mem_preCalls, not_mem_profDefers, not_mem_cpuDefers, Call.isSetup,
      started_not_panicked, hp]
    | observerErr hp hN2 hJ2 hO err hg =>
      rcases hO with h | h
      · exact absurd h hW
      · exact absurd h hT
    | observerNegative hp hN2 hJ2 hO hg h6 =>
      rcases hO with h | h
      · exact absurd h hW
      · exact absurd h hT
    | observerStarted hp hN2 hJ2 hO hg h6 =>
      rcases hO with h | h
      · exact absurd h hW
      · exact absurd h hT
    | _ => contradiction

/-- C9, amended, at the unknown start mode 9 with no profiling: the run aborts
with "get no node info" and the node is not started. -/
theorem C9_url_required_witness :
    (run modes (cfg0 9 0) (world0 4 [])).aborted ∧
    ¬ (run modes (cfg0 9 0) (world0 4 [])).startedNode ∧
    (run modes (cfg0 9 0) (world0 4 [])).outcome = Outcome.panicked (Panic.getNoNodeInfo 9) :=
  have h := (C9_url_required modes (cfg0 9 0) (world0 4 []) (by decide) (by decide)).2
    (by decide) (by decide)
  ⟨h.2.1, h.2.2.1, h.2.2.2.1 (by decide)⟩

/-- C5: the failing input.  A Normal start with node id 4 on a node list of
four entries does not reach the check of line 126: the lookup
`cluster.NodeList[nodeId]` of line 125 is evaluated first, with the
out-of-range index 4, and `run` ends in the run-time panic of the index
expression, not in the panic "Invalid nodeid 4 cluster size 4". -/
theorem C5_lookup_before_check :
    (cfg0 0 4).start_mode = modes.ModeNormal ∧
    ((world0 4 []).Init.length : Int) ≤ (cfg0 0 4).local_id ∧
    (run modes (cfg0 0 4) (world0 4 [])).outcome =
      Outcome.panicked (Panic.indexOutOfRange 4 4) ∧
    (run modes (cfg0 0 4) (world0 4 [])).outcome ≠
      Outcome.panicked (Panic.invalidNodeid 4 4) := by
  decide

/-- In Normal mode the check of line 126 never fires: an id at or beyond the
length of the node list makes the lookup of line 125 panic first, whenever
`run` gets as far as the start-mode dispatch. -/
theorem normal_range_check_unreachable (c : ModeConsts) (cfg : Config) (w : World)
    (hN : cfg.start_mode = c.ModeNormal) :
    (∀ id n, (run c cfg w).outcome ≠ Outcome.panicked (Panic.invalidNodeid id n)) ∧
    (ProfilesOk cfg w → (w.Init.length : Int) ≤ cfg.local_id →
      (run c cfg w).outcome =
        Outcome.panicked (Panic.indexOutOfRange cfg.local_id w.Init.length)) := by
  have hc := run_case c cfg w
  generalize run c cfg w = r at hc ⊢
  cases hc with
  | normalStarted hp hN2 h0 ni hg h =>
    have hlt := (List.getElem?_eq_some.mp hg).1
    simp [Result.aborted, Result.startedNode, Result.startedHTTP, stopped, started,
      mem_startCalls, not_mem_preCalls, not_mem_profDefers, not_mem_cpuDefers, Call.isSetup,
      started_not_panicked]
    omega
  | normalNoInfo hp hN2 h0 ni hg h =>
    have hlt := (List.getElem?_eq_some.mp hg).1
    simp [Result.aborted, Result.startedNode, Result.startedHTTP, stopped, started,
      mem_startCalls, not_mem_preCalls, not_mem_profDefers, not_mem_cpuDefers, Call.isSetup,
      started_not_panicked]
    omega
  | normalOutOfRange hp hN2 h => simp [Result.aborted, Result.startedNode, Result.startedHTTP, stopped, started,
      mem_startCalls, not_mem_preCalls, not_mem_profDefers, not_mem_cpuDefers, Call.isSetup,
      started_not_panicked]
  | cpuFail h => simp [ProfilesOk, h]
  | memFail h1 h => simp [ProfilesOk, h]
  | _ => contradiction

end Server
